import Mathlib

set_option maxRecDepth 100000

/-
Verification of the sentiment-analysis backend (Reddit collector, sentiment
classifier, item store, aggregator, backfill orchestrator).

Shallow embedding conventions:
  * Python strings are Lean `String`s; the `in` substring operator is
    `containsSub` over the underlying character lists; `str.lower()` is
    `pyLower` (character-wise `Char.toLower`).
  * Timestamps (`datetime` values) are integers counting seconds; a
    `timedelta(days = 1)` is 86400 seconds, and `.days` of a difference is
    integer division by 86400.  Where a comparison mixes an offset-naive
    value (as read back from a `Column(DateTime)` without `timezone=True`)
    with an offset-aware one, it is embedded through `PyDateTime`, whose
    comparison raises `TypeError` exactly as Python does.
  * Python floats are modelled as rationals.
  * The VADER `polarity_scores` call is an external library; code that
    consumes its output is embedded as a function of a `PolarityScores`
    record (and collection code that needs a sentiment for an item takes
    the score oracle as an explicit argument).
  * Database tables are Lean lists of records; a committed transaction
    appends rows, a rolled-back one leaves the list untouched.
-/

/-- Embedding of the Python substring test `needle in haystack` on the
underlying character lists: true iff `needle` occurs contiguously in the
haystack. -/
def containsSub (needle : List Char) : List Char → Bool
  | [] => needle.isEmpty
  | c :: rest => needle.isPrefixOf (c :: rest) || containsSub needle rest

/-- Embedding of Python `str.lower()` (character-wise lowering). -/
def pyLower (text : List Char) : List Char :=
  text.map Char.toLower

theorem containsSub_nil (l : List Char) : containsSub [] l = true := by
  induction l with
  | nil => rfl
  | cons c rest ih => simp [containsSub]

/-- Substring containment survives appending text on the right. -/
theorem containsSub_append_right (needle hay ext : List Char)
    (h : containsSub needle hay = true) :
    containsSub needle (hay ++ ext) = true := by
  induction hay with
  | nil =>
      simp [containsSub, List.isEmpty_iff] at h
      subst h
      exact containsSub_nil ext
  | cons c rest ih =>
      simp only [containsSub, Bool.or_eq_true] at h
      rcases h with h | h
      · have hpre : needle <+: c :: rest := List.isPrefixOf_iff_prefix.mp h
        have : needle <+: (c :: rest) ++ ext :=
          hpre.trans (List.prefix_append (c :: rest) ext)
        simp only [List.cons_append, containsSub, Bool.or_eq_true]
        exact Or.inl (List.isPrefixOf_iff_prefix.mpr (by simpa using this))
      · simp only [List.cons_append, containsSub, Bool.or_eq_true]
        exact Or.inr (ih h)

/-- The political keyword list of `RedditCollector.__init__`
(`reddit_collector.py`), transcribed verbatim, duplicates and all
(e.g. `larreta`, `legislativo` and `nacional` each appear twice). -/
def political_keywords : List String := [
  -- Politicians (with and without accents)
  "milei", "cristina", "cfk", "cFK", "macri", "massa", "bullrich", "kicillof", "axel",
  "fernandez", "fernández", "larreta", "larreta", "rodriguez", "rodríguez",
  "patricia bullrich", "alberto", "mauricio", "nestor", "néstor",
  "scioli", "randazzo", "schiaretti", "moreno", "grabois",
  "del caño", "del cano", "espert", "gomez", "gómez centurión", "centurion",
  "villarruel", "santoro", "tolosa paz", "manes", "facundo", "bregman",
  "stolbizer", "lousteau", "martin", "tetaz", "vidal",
  -- Political terms (with accent variations)
  "politica", "política", "politico", "político", "politicos", "políticos",
  "elecciones", "eleccion", "elección", "electoral", "electorales",
  "votar", "votacion", "votación", "voto", "votos",
  "presidente", "presidencia", "presidencial", "presidenciales",
  "gobierno", "gobernador", "gobernadora", "intendente",
  "congreso", "senado", "diputados", "diputado", "diputada", "senador", "senadora",
  "legislatura", "legislador", "legisladora", "legislativo",
  "ministro", "ministra", "ministerio", "secretario", "secretaria",
  "funcionario", "funcionaria", "dirigente", "autoridades",
  -- Parties and movements (with variations)
  "peronismo", "peronista", "peron", "perón", "justicialista",
  "kirchnerismo", "kirchnerista", "k", "cristinismo",
  "macrismo", "macrista", "cambiemos", "pro",
  "libertarios", "libertario", "la libertad avanza", "lla", "llaa",
  "juntos por el cambio", "jxc", "jpc",
  "frente de todos", "union por la patria", "unión por la patria", "up",
  "ucr", "radical", "radicalismo", "radicales",
  "izquierda", "fit", "fitu", "socialista", "comunista",
  "fpv", "frente para la victoria",
  -- Government terms
  "estado", "nacional", "provincial", "municipal",
  "casa rosada", "rosada", "balcarce",
  "camara", "cámara", "legislativo", "ejecutivo", "judicial",
  "poder ejecutivo", "poder legislativo", "poder judicial",
  -- Political topics (with accent variations)
  "campaña", "campana", "propaganda", "proselitismo",
  "reforma", "proyecto de ley", "ley", "decreto", "dnu",
  "veto", "sancion", "sanción", "promulgacion", "promulgación",
  "corrupcion", "corrupción", "corrupto", "coima", "soborno",
  "juicio politico", "juicio político", "impeachment", "destitución", "destitucion",
  "condena", "procesamiento", "causa", "fiscal", "juez",
  -- Protests and social movements
  "manifestacion", "manifestación", "marcha", "protesta", "movilizacion", "movilización",
  "piquete", "piquetero", "corte", "ruta", "calle",
  "sindical", "sindicato", "gremio", "cgt", "cta",
  "huelga", "paro", "conflicto", "reclamo",
  -- Economic/political terms
  "impuesto", "impuestos", "tributo", "tasas",
  "deficit", "déficit", "presupuesto", "deuda",
  "ajuste", "recorte", "inflacion", "inflación",
  "dolar", "dólar", "peso", "economia", "economía", "economico", "económico",
  "subsidio", "plan", "planes", "asignacion", "asignación",
  -- Democratic processes
  "democracia", "democratico", "democrático",
  "constitucion", "constitución", "constitucional",
  "republica", "república", "republicano",
  "golpe", "golpe de estado", "dictadura", "autoritario",
  -- Argentina specific
  "argentina", "argentino", "argentinos", "pais", "país", "nacion", "nación",
  "patria", "nacional", "territorio", "soberania", "soberanía"]

/-- The match count computed by `RedditCollector.is_political` (and inlined
at the backfill call sites in `main.py` and `backfill_with_comments.py`):
`sum(1 for keyword in self.political_keywords if keyword in text_lower)`.
It iterates over keyword-list *entries*, so a keyword listed twice is
counted twice. -/
def keywordMatches (text : String) : Nat :=
  political_keywords.countP (fun keyword => containsSub keyword.data (pyLower text.data))

/-- Embedding of `RedditCollector.is_political` (`reddit_collector.py` lines 103-107):
lowercase the text and require at least 2 keyword matches. -/
def is_political (text : String) : Bool :=
  decide (2 ≤ keywordMatches text)

/-- Number of *distinct* keywords of the list that occur in the text
(the quantity the specification's threshold sentence speaks about). -/
def distinctKeywordMatches (text : String) : Nat :=
  ((political_keywords.filter
      (fun keyword => containsSub keyword.data (pyLower text.data))).dedup).length

theorem distinctKeywordMatches_le (t : String) :
    distinctKeywordMatches t ≤ keywordMatches t := by
  unfold distinctKeywordMatches keywordMatches
  rw [List.countP_eq_length_filter]
  exact (List.dedup_sublist _).length_le

/-- C3 (amended): `is_political` returns true iff the number of matching
keyword-list entries, counted with the list's multiplicity, is at least 2;
in particular a text containing at least 2 distinct keywords passes.  (The
claim's converse direction — exactly 1 distinct keyword implies false —
fails because the list contains duplicate entries; see the
counterexample.) -/
theorem is_political_match_count (t : String) :
    (is_political t = true ↔ 2 ≤ keywordMatches t)
    ∧ (2 ≤ distinctKeywordMatches t → is_political t = true) := by
  constructor
  · simp [is_political]
  · intro h
    simp only [is_political, decide_eq_true_eq]
    exact le_trans h (distinctKeywordMatches_le t)

theorem is_political_match_count_witness :
    2 ≤ distinctKeywordMatches "milei cristina"
    ∧ is_political "milei cristina" = true := by
  refine ⟨by decide, (is_political_match_count "milei cristina").2 (by decide)⟩

/-- C3 counterexample: the text `"larreta"` contains exactly 1 distinct
domain keyword, yet `is_political` returns true, because the entry
`'larreta'` is listed twice in `political_keywords` and the code counts
list entries, not distinct keywords. -/
theorem is_political_one_distinct_keyword_cx :
    distinctKeywordMatches "larreta" = 1 ∧ is_political "larreta" = true := by
  exact ⟨by decide, by decide⟩

theorem keywordMatches_mono (t s : String) :
    keywordMatches t ≤ keywordMatches (t ++ s) := by
  unfold keywordMatches
  apply List.countP_mono_left
  intro kw _ h
  rw [String.data_append]
  unfold pyLower
  rw [List.map_append]
  exact containsSub_append_right _ _ _ h

/-- C10: the relevance filter is monotone under appending text — each
keyword's substring containment, and hence the entry-match count, can only
grow when text is appended. -/
theorem is_political_monotone_append (t s : String)
    (h : is_political t = true) : is_political (t ++ s) = true := by
  simp only [is_political, decide_eq_true_eq] at h ⊢
  exact le_trans h (keywordMatches_mono t s)

theorem is_political_monotone_append_witness :
    is_political ("milei cristina" ++ " hoy paro") = true := by
  exact is_political_monotone_append "milei cristina" " hoy paro" (by decide)

/-- The topic keyword list of `ArgentineSentimentAnalyzer.extract_topics`
(`sentiment_analyzer.py` lines 94-102). -/
def topic_keywords : List String := [
  "economía", "inflación", "dólar", "peso",
  "milei", "cristina", "macri", "massa",
  "peronismo", "kirchnerismo", "libertarios",
  "educación", "salud", "seguridad", "trabajo",
  "corrupción", "justicia", "política",
  "congreso", "senado", "diputados",
  "provincias", "caba", "buenos aires"]

/-- Embedding of `ArgentineSentimentAnalyzer.extract_topics`: lowercase the text and
append each topic keyword that occurs as a substring, in keyword-list
order, without repetition. -/
def extract_topics (text : String) : List String :=
  topic_keywords.filter (fun keyword => containsSub keyword.data (pyLower text.data))

/-- The output of the external VADER `polarity_scores` call (a library
function, not repository code): a compound score plus the pos/neg/neu
proportions.  Floats are modelled as rationals. -/
structure PolarityScores where
  compound : ℚ
  pos : ℚ
  neg : ℚ
  neu : ℚ
deriving DecidableEq

/-- The dictionary returned by `ArgentineSentimentAnalyzer.analyze`. -/
structure SentimentResult where
  sentiment : String
  score : ℚ
  positive : ℚ
  negative : ℚ
  neutral : ℚ
  confidence : ℚ
deriving DecidableEq

/-- Embedding of `ArgentineSentimentAnalyzer.analyze` (`sentiment_analyzer.py` lines
56-83), embedded as a function of the scores VADER produced for the
preprocessed text: classify by the exact thresholds 0.05 / -0.05 and set
`confidence` to the maximum of the three proportions. -/
def analyze (scores : PolarityScores) : SentimentResult :=
  let compound := scores.compound
  let sentiment :=
    if (5 : ℚ)/100 ≤ compound then "positive"
    else if compound ≤ -(5 : ℚ)/100 then "negative"
    else "neutral"
  { sentiment := sentiment
    score := compound
    positive := scores.pos
    negative := scores.neg
    neutral := scores.neu
    confidence := max scores.pos (max scores.neg scores.neu) }

/-- C4: `analyze` labels positive iff compound ≥ 0.05, negative iff
compound ≤ -0.05, neutral otherwise, and its confidence is the maximum of
the pos/neg/neu fractions. -/
theorem analyze_thresholds_and_confidence (s : PolarityScores) :
    ((analyze s).sentiment = "positive" ↔ (5 : ℚ)/100 ≤ s.compound)
    ∧ ((analyze s).sentiment = "negative" ↔ s.compound ≤ -(5 : ℚ)/100)
    ∧ ((analyze s).sentiment = "neutral" ↔
        (-(5 : ℚ)/100 < s.compound ∧ s.compound < (5 : ℚ)/100))
    ∧ (analyze s).confidence = max s.pos (max s.neg s.neu) := by
  simp only [analyze]
  split_ifs with h1 h2 <;>
    refine ⟨?_, ?_, ?_, trivial⟩ <;>
    simp only [String.reduceEq, iff_false, iff_true, false_iff, true_iff,
      not_and, not_lt, not_le] <;>
    first
      | linarith
      | (intro h; linarith)
      | (constructor <;> linarith)

/-- One analyzed item, as both the `post_data` dictionary handed to
`save_posts` and the `Post` row it creates (`database.py`): `save_posts`
copies the dictionary fields verbatim into the row. -/
structure PostData where
  id : String
  subreddit : String
  title : String
  text : String
  author : String
  score : ℤ
  num_comments : ℤ
  created_utc : ℤ
  url : String
  sentiment : String
  sentiment_score : ℚ
  topics : List String
  source : String
deriving DecidableEq

/-- The existence check `db.query(Post).filter(Post.id == post_id).first()`:
is a row with this id present in the (committed) store?  The session is
created with `autoflush=False`, so rows added earlier in the same batch are
not visible to this query — which is why the code keeps `seen_ids`. -/
def memId (store : List PostData) (i : String) : Bool :=
  store.any (fun q => q.id == i)

/-- The item loop of `save_posts` (`database.py` lines 129-166): walk the
batch keeping a within-batch `seen` id set, skip ids already seen or
already in the committed store, and stage the rest (`db.add`) in `pending`
together with the saved/skipped counters. -/
def saveAux (store0 : List PostData) :
    List PostData → List String → List PostData → Nat → Nat →
      List PostData × Nat × Nat
  | [], _seen, pending, saved, skipped => (pending, saved, skipped)
  | p :: rest, seen, pending, saved, skipped =>
    if seen.contains p.id then
      saveAux store0 rest seen pending saved (skipped + 1)
    else if memId store0 p.id then
      saveAux store0 rest seen pending saved (skipped + 1)
    else
      saveAux store0 rest (p.id :: seen) (pending ++ [p]) (saved + 1) skipped

/-- Embedding of `save_posts` without failures: run the loop and commit, appending the
staged rows to the store; the saved/skipped counters are the values the
function prints at the end. -/
def save_posts (store : List PostData) (posts_data : List PostData) :
    List PostData × Nat × Nat :=
  match saveAux store posts_data [] [] 0 0 with
  | (pending, saved, skipped) => (store ++ pending, saved, skipped)

theorem memId_append (s t : List PostData) (i : String) :
    memId (s ++ t) i = (memId s i || memId t i) := by
  simp [memId, List.any_append]

theorem saveAux_pending_mono (store0 : List PostData) :
    ∀ (batch : List PostData) (seen : List String) (pending : List PostData)
      (saved skipped : Nat) (i : String), memId pending i = true →
      memId (saveAux store0 batch seen pending saved skipped).1 i = true := by
  intro batch
  induction batch with
  | nil => intro seen pending saved skipped i h; simpa [saveAux] using h
  | cons p rest ih =>
      intro seen pending saved skipped i h
      simp only [saveAux]
      split_ifs with h1 h2
      · exact ih seen pending saved (skipped + 1) i h
      · exact ih seen pending saved (skipped + 1) i h
      · refine ih (p.id :: seen) (pending ++ [p]) (saved + 1) skipped i ?_
        rw [memId_append, h]
        rfl

theorem saveAux_covers (store0 : List PostData) :
    ∀ (batch : List PostData) (seen : List String) (pending : List PostData)
      (saved skipped : Nat),
      (∀ i, i ∈ seen → memId pending i = true) →
      ∀ p ∈ batch, memId store0 p.id = true ∨
        memId (saveAux store0 batch seen pending saved skipped).1 p.id = true := by
  intro batch
  induction batch with
  | nil => intro seen pending saved skipped _ p hp; exact absurd hp (List.not_mem_nil p)
  | cons q rest ih =>
      intro seen pending saved skipped hinv p hp
      simp only [saveAux]
      split_ifs with h1 h2
      · rcases List.mem_cons.mp hp with rfl | hp'
        · exact Or.inr (saveAux_pending_mono store0 rest seen pending saved (skipped + 1)
            p.id (hinv p.id (List.mem_of_elem_eq_true h1)))
        · exact ih seen pending saved (skipped + 1) hinv p hp'
      · rcases List.mem_cons.mp hp with rfl | hp'
        · exact Or.inl h2
        · exact ih seen pending saved (skipped + 1) hinv p hp'
      · have hinv' : ∀ i, i ∈ q.id :: seen → memId (pending ++ [q]) i = true := by
          intro i hi
          rcases List.mem_cons.mp hi with rfl | hi'
          · rw [memId_append]
            simp [memId]
          · rw [memId_append, hinv i hi']
            rfl
        rcases List.mem_cons.mp hp with rfl | hp'
        · exact Or.inr (saveAux_pending_mono store0 rest (p.id :: seen) (pending ++ [p])
            (saved + 1) skipped p.id (hinv' p.id (List.mem_cons_self p.id seen)))
        · exact ih (q.id :: seen) (pending ++ [q]) (saved + 1) skipped hinv' p hp'

theorem save_posts_covers (store batch : List PostData) :
    ∀ p ∈ batch, memId (save_posts store batch).1 p.id = true := by
  intro p hp
  have h := saveAux_covers store batch [] [] 0 0 (by intro i hi; cases hi) p hp
  unfold save_posts
  rcases hres : saveAux store batch [] [] 0 0 with ⟨pending, saved, skipped⟩
  rw [hres] at h
  rcases h with h | h
  · simp only [memId_append, h, Bool.true_or]
  · simp only [memId_append, h, Bool.or_true]

theorem saveAux_all_skip (store : List PostData) :
    ∀ (batch pending : List PostData) (saved skipped : Nat),
      (∀ p ∈ batch, memId store p.id = true) →
      saveAux store batch [] pending saved skipped =
        (pending, saved, skipped + batch.length) := by
  intro batch
  induction batch with
  | nil => intro pending saved skipped _; simp [saveAux]
  | cons p rest ih =>
      intro pending saved skipped h
      have hp : memId store p.id = true := h p (List.mem_cons_self p rest)
      have hrest : ∀ q ∈ rest, memId store q.id = true :=
        fun q hq => h q (List.mem_cons_of_mem p hq)
      simp only [saveAux, List.contains_nil, hp, if_true, if_false, Bool.false_eq_true]
      rw [ih pending saved (skipped + 1) hrest]
      have : skipped + 1 + rest.length = skipped + (p :: rest).length := by
        simp [List.length_cons]
        omega
      rw [this]

/-- C1: persisting a batch and then persisting the identical batch again
leaves the store unchanged on the second call, whose saved count is 0 and
whose skipped count is the batch length (every list element hits either the
store-existence check or, never, the seen-set). -/
theorem save_posts_reapply (store batch : List PostData) :
    save_posts (save_posts store batch).1 batch =
      ((save_posts store batch).1, 0, batch.length) := by
  have hcov := save_posts_covers store batch
  conv_lhs => rw [save_posts]
  rw [saveAux_all_skip _ batch [] 0 0 hcov]
  simp

/-- What a `save_posts` call leaves behind: the posts table, and whether an
exception escaped the call.  The Python function returns `None` on every
path, so `raised` is the only channel through which the caller could learn
of a failure. -/
structure SaveOutcome where
  store : List PostData
  raised : Bool
deriving DecidableEq

/-- The `save_posts` item loop with an injected failure: when the loop
reaches batch position `failAt` (0-indexed), processing that item raises
(as `datetime.fromisoformat` or a missing dictionary key would), modelled
as `Except.error`. -/
def saveLoopFail (store0 : List PostData) (failAt : Option Nat) :
    List PostData → Nat → List String → List PostData → Nat → Nat →
      Except String (List PostData × Nat × Nat)
  | [], _idx, _seen, pending, saved, skipped => .ok (pending, saved, skipped)
  | p :: rest, idx, seen, pending, saved, skipped =>
    if failAt = some idx then .error "exception while processing item"
    else if seen.contains p.id then
      saveLoopFail store0 failAt rest (idx + 1) seen pending saved (skipped + 1)
    else if memId store0 p.id then
      saveLoopFail store0 failAt rest (idx + 1) seen pending saved (skipped + 1)
    else
      saveLoopFail store0 failAt rest (idx + 1) (p.id :: seen) (pending ++ [p])
        (saved + 1) skipped

/-- Embedding of `save_posts` under the try/except of `database.py` lines 128-178, with
an optional injected failure (`some k` with `k < batch.length`: processing
the k-th item raises; `some batch.length`: `db.commit()` raises; `none`: no
failure).  Nothing is flushed before the commit, so the except clause's
`db.rollback()` leaves the committed store exactly as it was; the exception
is printed and swallowed, so `raised` is always false and the function
still returns `None` to its caller. -/
def save_posts_run (store batch : List PostData) (failAt : Option Nat) :
    SaveOutcome :=
  match saveLoopFail store failAt batch 0 [] [] 0 0 with
  | .error _ => { store := store, raised := false }
  | .ok (pending, _saved, _skipped) =>
      if failAt = some batch.length then
        { store := store, raised := false }
      else
        { store := store ++ pending, raised := false }

theorem saveLoopFail_none (store0 : List PostData) :
    ∀ (batch : List PostData) (idx : Nat) (seen : List String)
      (pending : List PostData) (saved skipped : Nat),
      saveLoopFail store0 none batch idx seen pending saved skipped =
        .ok (saveAux store0 batch seen pending saved skipped) := by
  intro batch
  induction batch with
  | nil => intro idx seen pending saved skipped; simp [saveLoopFail, saveAux]
  | cons p rest ih =>
      intro idx seen pending saved skipped
      simp only [saveLoopFail, saveAux, reduceCtorEq, if_false]
      split_ifs with h1 h2 <;> apply ih

/-- Without an injected failure, `save_posts_run` is the plain `save_posts`
with no exception escaping. -/
theorem save_posts_run_none (store batch : List PostData) :
    save_posts_run store batch none =
      { store := (save_posts store batch).1, raised := false } := by
  unfold save_posts_run save_posts
  rw [saveLoopFail_none]
  rcases saveAux store batch [] [] 0 0 with ⟨pending, saved, skipped⟩
  simp

theorem saveLoopFail_hits (store0 : List PostData) (k : Nat) :
    ∀ (batch : List PostData) (idx : Nat) (seen : List String)
      (pending : List PostData) (saved skipped : Nat),
      idx ≤ k → k < idx + batch.length →
      saveLoopFail store0 (some k) batch idx seen pending saved skipped =
        .error "exception while processing item" := by
  intro batch
  induction batch with
  | nil => intro idx seen pending saved skipped h1 h2; simp at h2; omega
  | cons p rest ih =>
      intro idx seen pending saved skipped h1 h2
      by_cases hk : k = idx
      · simp [saveLoopFail, hk]
      · have hik : idx + 1 ≤ k := by omega
        have hk2 : k < (idx + 1) + rest.length := by
          simp only [List.length_cons] at h2
          omega
        simp only [saveLoopFail, Option.some.injEq, hk, Ne.symm hk, if_false]
        split_ifs with h3 h4 <;> exact ih (idx + 1) _ _ _ _ hik hk2

/-- C2 (amended): if persistence fails partway through a batch — while
processing any item, or at the final commit — the whole batch is rolled
back with no partial writes and the exception does not escape the persist
call; however the failure is only printed, not reported to the caller
(see the counterexample for the refuted conjunct of the original claim). -/
theorem save_posts_failure_rolls_back (store batch : List PostData) (k : Nat)
    (hk : k ≤ batch.length) :
    save_posts_run store batch (some k) = { store := store, raised := false } := by
  unfold save_posts_run
  rcases Nat.lt_or_ge k batch.length with hlt | hge
  · rw [saveLoopFail_hits store k batch 0 [] [] 0 0 (Nat.zero_le k) (by omega)]
  · have hkeq : k = batch.length := le_antisymm hk hge
    rcases hres : saveLoopFail store (some k) batch 0 [] [] 0 0 with e | ok
    · rfl
    · rcases ok with ⟨pending, saved, skipped⟩
      simp [hkeq]

theorem save_posts_failure_rolls_back_witness :
    (0 : Nat) ≤ 1 ∧
    save_posts_run []
      [{ id := "abc123", subreddit := "argentina", title := "t", text := "x",
         author := "u", score := 1, num_comments := 0, created_utc := 0,
         url := "https link", sentiment := "neutral", sentiment_score := 0,
         topics := [], source := "reddit" }] (some 0) =
      { store := [], raised := false } := by
  exact ⟨by decide, save_posts_failure_rolls_back _ _ 0 (by decide)⟩

/-- C2 counterexample, refuting the claim's "the failure is reported to the
caller" conjunct: a call that fails while processing its (only) batch item
produces exactly the same caller-visible outcome as a successful call on
the same input — no exception escapes (`raised = false`) and the Python
function returns `None` on both paths — so the caller cannot learn that
persistence failed (indeed `main.py` marks the backfill `completed` and
`scheduler.py` logs success regardless). -/
theorem save_posts_failure_unreported_cx :
    (save_posts_run []
      [{ id := "abc123", subreddit := "argentina", title := "t", text := "x",
         author := "u", score := 1, num_comments := 0, created_utc := 0,
         url := "https link", sentiment := "neutral", sentiment_score := 0,
         topics := [], source := "reddit" }] (some 0)).raised = false
    ∧ (save_posts_run []
      [{ id := "abc123", subreddit := "argentina", title := "t", text := "x",
         author := "u", score := 1, num_comments := 0, created_utc := 0,
         url := "https link", sentiment := "neutral", sentiment_score := 0,
         topics := [], source := "reddit" }] (some 0)).raised
      = (save_posts_run []
      [{ id := "abc123", subreddit := "argentina", title := "t", text := "x",
         author := "u", score := 1, num_comments := 0, created_utc := 0,
         url := "https link", sentiment := "neutral", sentiment_score := 0,
         topics := [], source := "reddit" }] none).raised := by
  exact ⟨rfl, rfl⟩

/-- A `DailySummary` row (`database.py` lines 67-88). -/
structure DailySummaryRow where
  date : ℤ
  total_posts : Nat
  positive_count : Nat
  negative_count : Nat
  neutral_count : Nat
  positive_pct : ℚ
  negative_pct : ℚ
  neutral_pct : ℚ
  avg_sentiment_score : ℚ
  top_topics : List (String × Nat)
deriving DecidableEq

/-- A `Topic` trend row (`database.py` lines 91-105). -/
structure TopicRow where
  name : String
  date : ℤ
  mention_count : Nat
  avg_sentiment : ℚ
  positive_mentions : Nat
  negative_mentions : Nat
  neutral_mentions : Nat
deriving DecidableEq

/-- The three tables the pipeline writes. -/
structure DBState where
  posts : List PostData
  daily_summaries : List DailySummaryRow
  topics : List TopicRow
deriving DecidableEq

/-- Embedding of `datetime.now().replace(hour=0, minute=0, second=0, microsecond=0)`:
truncate an instant to the start of its day. -/
def dayStart (now : ℤ) : ℤ :=
  86400 * (now / 86400)

/-- Keep the first occurrence of every element, in encounter order (the key
order of a Python `Counter` built from a list). -/
def firstSeenAux (acc : List String) : List String → List String
  | [] => acc.reverse
  | x :: xs => if x ∈ acc then firstSeenAux acc xs else firstSeenAux (x :: acc) xs

def firstSeen (l : List String) : List String :=
  firstSeenAux [] l

/-- Stable insertion before the first strictly smaller count. -/
def insertByCountDesc (x : String × Nat) :
    List (String × Nat) → List (String × Nat)
  | [] => [x]
  | y :: ys => if y.2 < x.2 then x :: y :: ys else y :: insertByCountDesc x ys

/-- Stable sort by descending count (`Counter.most_common` tie-breaks by
first-encounter order). -/
def sortByCountDesc (l : List (String × Nat)) : List (String × Nat) :=
  l.foldl (fun acc x => insertByCountDesc x acc) []

/-- Embedding of `Counter(all_topics).most_common(10)` over the topics of the day's
posts (`scheduler.py` lines 70-80); the `if post.topics` guard only skips
empty lists, which contribute nothing to the concatenation. -/
def topTopics (posts : List PostData) : List (String × Nat) :=
  (sortByCountDesc (((firstSeen ((posts.map (fun p => p.topics)).flatten)).map
    (fun t => (t, ((posts.map (fun p => p.topics)).flatten).count t))))).take 10

/-- The summary row built by `generate_daily_summary` (`scheduler.py`
lines 62-94): label counts, percentages as count/total, average compound,
top-10 topics. -/
def mkDailySummary (yesterday : ℤ) (posts : List PostData) : DailySummaryRow :=
  let total := posts.length
  let positive := posts.countP (fun p => decide (p.sentiment = "positive"))
  let negative := posts.countP (fun p => decide (p.sentiment = "negative"))
  let neutral := posts.countP (fun p => decide (p.sentiment = "neutral"))
  { date := yesterday
    total_posts := total
    positive_count := positive
    negative_count := negative
    neutral_count := neutral
    positive_pct := (positive : ℚ) / (total : ℚ)
    negative_pct := (negative : ℚ) / (total : ℚ)
    neutral_pct := (neutral : ℚ) / (total : ℚ)
    avg_sentiment_score := (posts.map (fun p => p.sentiment_score)).sum / (total : ℚ)
    top_topics := topTopics posts }

/-- The posts fetched for yesterday's summary:
`created_utc >= yesterday` and `created_utc < today`, where
`today = dayStart now` and `yesterday = today - 86400`. -/
def yesterdayPosts (now : ℤ) (posts : List PostData) : List PostData :=
  posts.filter (fun p =>
    decide (dayStart now - 86400 ≤ p.created_utc) && decide (p.created_utc < dayStart now))

/-- Embedding of `DataCollectionScheduler.generate_daily_summary` (`scheduler.py` lines
39-106): no-op if a summary for yesterday exists, no-op if yesterday has no
posts, otherwise append exactly one summary row for yesterday. -/
def generate_daily_summary (now : ℤ) (db : DBState) : DBState :=
  if db.daily_summaries.any (fun s => decide (s.date = dayStart now - 86400)) then db
  else if (yesterdayPosts now db.posts).isEmpty then db
  else { db with daily_summaries := db.daily_summaries ++
          [mkDailySummary (dayStart now - 86400) (yesterdayPosts now db.posts)] }

/-- Number of summary rows recorded for a given day. -/
def summaryCountFor (d : ℤ) (db : DBState) : Nat :=
  db.daily_summaries.countP (fun s => decide (s.date = d))

theorem mkDailySummary_date (y : ℤ) (posts : List PostData) :
    (mkDailySummary y posts).date = y := rfl

theorem generate_daily_summary_existing (now : ℤ) (db : DBState)
    (h : db.daily_summaries.any (fun s => decide (s.date = dayStart now - 86400)) = true) :
    generate_daily_summary now db = db := by
  unfold generate_daily_summary
  rw [if_pos h]

theorem generate_daily_summary_no_posts (now : ℤ) (db : DBState)
    (h : yesterdayPosts now db.posts = []) :
    generate_daily_summary now db = db := by
  unfold generate_daily_summary
  split_ifs with h1 h2
  · rfl
  · rfl
  · rw [h] at h2
    exact absurd rfl h2

theorem generate_daily_summary_writes (now : ℤ) (db : DBState)
    (hex : db.daily_summaries.any (fun s => decide (s.date = dayStart now - 86400)) = false)
    (hne : yesterdayPosts now db.posts ≠ []) :
    generate_daily_summary now db =
      { db with daily_summaries := db.daily_summaries ++
          [mkDailySummary (dayStart now - 86400) (yesterdayPosts now db.posts)] } := by
  unfold generate_daily_summary
  split_ifs with h1 h2
  · rw [hex] at h1
    exact absurd h1 (by simp)
  · exact absurd (List.isEmpty_iff.mp h2) hne
  · rfl

theorem generate_daily_summary_day_congr (n₁ n₂ : ℤ)
    (h : dayStart n₁ = dayStart n₂) :
    generate_daily_summary n₂ = generate_daily_summary n₁ := by
  funext db
  unfold generate_daily_summary yesterdayPosts
  rw [h]

theorem generate_daily_summary_idem_self (n : ℤ) (db : DBState) :
    generate_daily_summary n (generate_daily_summary n db) =
      generate_daily_summary n db := by
  by_cases h1 : db.daily_summaries.any
      (fun s => decide (s.date = dayStart n - 86400)) = true
  · rw [generate_daily_summary_existing n db h1,
      generate_daily_summary_existing n db h1]
  · replace h1 : db.daily_summaries.any
        (fun s => decide (s.date = dayStart n - 86400)) = false :=
      Bool.not_eq_true _ ▸ Bool.of_not_eq_true h1
    by_cases h2 : yesterdayPosts n db.posts = []
    · rw [generate_daily_summary_no_posts n db h2,
        generate_daily_summary_no_posts n db h2]
    · rw [generate_daily_summary_writes n db h1 h2]
      apply generate_daily_summary_existing
      show (db.daily_summaries ++
        [mkDailySummary (dayStart n - 86400) (yesterdayPosts n db.posts)]).any _ = true
      rw [List.any_append]
      simp [mkDailySummary_date]

/-- C5: the daily-summary job run twice for the same day produces exactly
one summary row for that day — an existing row for yesterday makes it a
no-op, an empty yesterday makes it a no-op (no zero summary is written),
a second run after a write sees the written row and no-ops. -/
theorem generate_daily_summary_idempotent (n₁ n₂ : ℤ) (db : DBState)
    (hday : dayStart n₁ = dayStart n₂) :
    (db.daily_summaries.any (fun s => decide (s.date = dayStart n₁ - 86400)) = true →
        generate_daily_summary n₁ db = db)
    ∧ (yesterdayPosts n₁ db.posts = [] → generate_daily_summary n₁ db = db)
    ∧ generate_daily_summary n₂ (generate_daily_summary n₁ db) =
        generate_daily_summary n₁ db
    ∧ (summaryCountFor (dayStart n₁ - 86400) db = 0 →
        yesterdayPosts n₁ db.posts ≠ [] →
        summaryCountFor (dayStart n₁ - 86400)
          (generate_daily_summary n₂ (generate_daily_summary n₁ db)) = 1) := by
  have hcongr := generate_daily_summary_day_congr n₁ n₂ hday
  refine ⟨generate_daily_summary_existing n₁ db,
    generate_daily_summary_no_posts n₁ db, ?_, ?_⟩
  · rw [hcongr]
    exact generate_daily_summary_idem_self n₁ db
  · intro hcount hne
    rw [hcongr, generate_daily_summary_idem_self n₁ db]
    have hex : db.daily_summaries.any
        (fun s => decide (s.date = dayStart n₁ - 86400)) = false := by
      rcases hany : db.daily_summaries.any
          (fun s => decide (s.date = dayStart n₁ - 86400)) with _ | _
      · rfl
      · exfalso
        obtain ⟨s, hs, hsd⟩ := List.any_eq_true.mp hany
        have := List.countP_eq_zero.mp hcount s hs
        exact this hsd
    rw [generate_daily_summary_writes n₁ db hex hne]
    show (db.daily_summaries ++
      [mkDailySummary (dayStart n₁ - 86400) (yesterdayPosts n₁ db.posts)]).countP _ = 1
    rw [List.countP_append]
    have hc : List.countP (fun s => decide (s.date = dayStart n₁ - 86400))
        db.daily_summaries = 0 := hcount
    rw [hc]
    simp [mkDailySummary_date, List.countP_cons]

/-- Concrete one-post store exercising the aggregator theorems. -/
def samplePost : PostData :=
  { id := "w1", subreddit := "argentina", title := "t", text := "x",
    author := "a", score := 3, num_comments := 1, created_utc := 86410,
    url := "u", sentiment := "positive", sentiment_score := 1/2,
    topics := ["milei"], source := "reddit" }

def sampleDB : DBState :=
  { posts := [samplePost], daily_summaries := [], topics := [] }

theorem generate_daily_summary_idempotent_witness :
    summaryCountFor (dayStart 172900 - 86400) sampleDB = 0
    ∧ yesterdayPosts 172900 sampleDB.posts ≠ []
    ∧ summaryCountFor (dayStart 172900 - 86400)
        (generate_daily_summary 172900 (generate_daily_summary 172900 sampleDB)) = 1 :=
  ⟨by decide, by decide,
    (generate_daily_summary_idempotent 172900 172900 sampleDB rfl).2.2.2
      (by decide) (by decide)⟩

theorem countP_sentiment_partition (l : List PostData)
    (h : ∀ p ∈ l, p.sentiment = "positive" ∨ p.sentiment = "negative"
      ∨ p.sentiment = "neutral") :
    l.countP (fun p => decide (p.sentiment = "positive"))
      + l.countP (fun p => decide (p.sentiment = "negative"))
      + l.countP (fun p => decide (p.sentiment = "neutral")) = l.length := by
  induction l with
  | nil => rfl
  | cons p rest ih =>
      have hp := h p (List.mem_cons_self p rest)
      have hrest : ∀ q ∈ rest, q.sentiment = "positive" ∨ q.sentiment = "negative"
          ∨ q.sentiment = "neutral" := fun q hq => h q (List.mem_cons_of_mem p hq)
      have htail := ih hrest
      simp only [List.countP_cons, List.length_cons]
      rcases hp with hp | hp | hp <;> simp [hp] <;> omega

/-- C6: whenever the daily-summary job persists a row (no summary exists
yet and yesterday has posts), the written row's percentages are each the
label count divided by the total, the three percentages sum to exactly 1,
and `total_posts` is the number of stored posts whose `created_utc` falls
in that day.  The value hypothesis on `sentiment` holds for every item the
pipeline stores, since `analyze` only ever emits these three labels. -/
theorem daily_summary_row_stats (now : ℤ) (db : DBState)
    (hex : db.daily_summaries.any
      (fun s => decide (s.date = dayStart now - 86400)) = false)
    (hne : yesterdayPosts now db.posts ≠ [])
    (hval : ∀ p ∈ yesterdayPosts now db.posts,
      p.sentiment = "positive" ∨ p.sentiment = "negative"
        ∨ p.sentiment = "neutral") :
    ∃ row : DailySummaryRow,
      generate_daily_summary now db =
        { db with daily_summaries := db.daily_summaries ++ [row] }
      ∧ row.positive_pct = (row.positive_count : ℚ) / (row.total_posts : ℚ)
      ∧ row.negative_pct = (row.negative_count : ℚ) / (row.total_posts : ℚ)
      ∧ row.neutral_pct = (row.neutral_count : ℚ) / (row.total_posts : ℚ)
      ∧ row.positive_pct + row.negative_pct + row.neutral_pct = 1
      ∧ row.total_posts = (yesterdayPosts now db.posts).length := by
  refine ⟨mkDailySummary (dayStart now - 86400) (yesterdayPosts now db.posts),
    generate_daily_summary_writes now db hex hne, rfl, rfl, rfl, ?_, rfl⟩
  have hlen0 : (yesterdayPosts now db.posts).length ≠ 0 :=
    fun h => hne (List.eq_nil_of_length_eq_zero h)
  have hcast : (((yesterdayPosts now db.posts).length : Nat) : ℚ) ≠ 0 :=
    Nat.cast_ne_zero.mpr hlen0
  simp only [mkDailySummary]
  rw [div_add_div_same, div_add_div_same]
  have hsum : (((yesterdayPosts now db.posts).countP
        (fun p => decide (p.sentiment = "positive")) : Nat) : ℚ)
      + ((yesterdayPosts now db.posts).countP
        (fun p => decide (p.sentiment = "negative")) : ℚ)
      + ((yesterdayPosts now db.posts).countP
        (fun p => decide (p.sentiment = "neutral")) : ℚ)
      = (((yesterdayPosts now db.posts).length : Nat) : ℚ) := by
    exact_mod_cast countP_sentiment_partition (yesterdayPosts now db.posts) hval
  rw [hsum, div_self hcast]

theorem daily_summary_row_stats_witness :
    ∃ row : DailySummaryRow,
      generate_daily_summary 172900 sampleDB =
        { sampleDB with daily_summaries := sampleDB.daily_summaries ++ [row] }
      ∧ row.positive_pct + row.negative_pct + row.neutral_pct = 1
      ∧ row.total_posts = (yesterdayPosts 172900 sampleDB.posts).length := by
  obtain ⟨row, h1, _, _, _, h5, h6⟩ :=
    daily_summary_row_stats 172900 sampleDB (by decide) (by decide) (by decide)
  exact ⟨row, h1, h5, h6⟩

/-- The shared `backfill_status` record of `main.py` (lines 27-34). -/
structure BackfillStatus where
  in_progress : Bool
  completed : Bool
  posts_collected : Nat
  started_at : Option ℤ
  completed_at : Option ℤ
  error : Option String
deriving DecidableEq

/-- The reset value of the status record (`main.py` lines 27-34 and the
reset in `clear_database`, lines 662-669). -/
def initialBackfillStatus : BackfillStatus :=
  { in_progress := false, completed := false, posts_collected := 0,
    started_at := none, completed_at := none, error := none }

def newestCreated (p : PostData) (rest : List PostData) : ℤ :=
  rest.foldl (fun a q => max a q.created_utc) p.created_utc

def oldestCreated (p : PostData) (rest : List PostData) : ℤ :=
  rest.foldl (fun a q => min a q.created_utc) p.created_utc

/-- A Python `datetime` value as it takes part in a comparison: its clock
fields (as seconds) and whether it carries a `tzinfo` (offset-aware). -/
structure PyDateTime where
  fields : ℤ
  aware : Bool
deriving DecidableEq

/-- Python `a > b` on datetimes: aware and naive values cannot be compared
and raise `TypeError` instead of returning a Bool. -/
def pyDateTimeGt (a b : PyDateTime) : Except String Bool :=
  if a.aware = b.aware then .ok (decide (b.fields < a.fields))
  else .error "TypeError: cannot compare offset-naive and offset-aware datetimes"

/-- The body of `check_and_start_backfill` (`main.py` lines 198-237), i.e.
its try-block: look at the posts table and the clock, and either return
early — recording an error when the newest stored timestamp compares more
than one day into the future, or recording completion when the store is
already sufficient (≥ 200 posts spanning ≥ 30 days) — or spawn the
backfill thread.  The returned Bool is "a backfill run was started".
`Post.created_utc` is a `Column(DateTime)` without `timezone=True`, so the
values read back from the store are offset-naive, while
`now = datetime.now(timezone.utc)` (line 214) is offset-aware: the guard
comparison at line 215 is between a naive and an aware datetime and raises.
The function never reads the incoming status record; in particular it
never consults `in_progress`. -/
def check_and_start_backfill_body (status : BackfillStatus)
    (posts : List PostData) (now : ℤ) : Except String (BackfillStatus × Bool) :=
  match posts with
  | [] => .ok (status, true)
  | p :: rest =>
      match pyDateTimeGt { fields := newestCreated p rest, aware := false }
          { fields := now + 86400, aware := true } with
      | .error e => .error e
      | .ok fut =>
          if fut then
            .ok ({ status with
                error := some "Database contains invalid future dates"
                completed := true }, false)
          else if 200 ≤ (p :: rest).length
              ∧ 30 ≤ (newestCreated p rest - oldestCreated p rest) / 86400 then
            .ok ({ status with completed := true }, false)
          else
            .ok (status, true)

/-- Embedding of `check_and_start_backfill` (`main.py` lines 191-243): run
the try-block; the generic `except Exception` at lines 239-240 only prints
the exception — it leaves the shared status record untouched and spawns no
thread. -/
def check_and_start_backfill (status : BackfillStatus) (posts : List PostData)
    (now : ℤ) : BackfillStatus × Bool :=
  match check_and_start_backfill_body status posts now with
  | .ok r => r
  | .error _ => (status, false)

/-- Embedding of `clear_database` (`main.py` lines 635-689): read the row counts (echoed
in the HTTP response), delete the three tables, reset the shared status
record to its initial value, and call `check_and_start_backfill` again
(which, on the now-empty store, starts a fresh backfill regardless of any
run still executing). -/
def clear_database (db : DBState) (now : ℤ) :
    DBState × BackfillStatus × Bool × Nat × Nat × Nat :=
  match check_and_start_backfill initialBackfillStatus [] now with
  | (st, started) =>
      ({ posts := [], daily_summaries := [], topics := [] }, st, started,
        db.posts.length, db.daily_summaries.length, db.topics.length)

/-- C7 (code bug): the data-integrity guard is dead code.  For every
nonempty store — in particular one whose newest post is dated far in the
future, the claim's scenario — the naive-vs-aware comparison at
`main.py` line 215 raises `TypeError` before the guard can act; the
generic except swallows it, so `check_and_start_backfill` neither records
the "invalid future dates" error in the shared status record nor starts a
backfill, returning the status unchanged.  The error-recording branch at
lines 216-223 shows the claim is the code's own intent, defeated by the
timezone slip. -/
theorem future_dates_guard_dead (st : BackfillStatus) (p : PostData)
    (rest : List PostData) (now : ℤ) :
    check_and_start_backfill st (p :: rest) now = (st, false) := rfl

/-- Evaluation at a concrete failing input: a store holding one post dated
ten days past the clock leaves the status record untouched — no error is
recorded — and starts nothing. -/
theorem future_dates_guard_dead_at_input :
    check_and_start_backfill initialBackfillStatus
      [{ id := "f1", subreddit := "argentina", title := "t", text := "x",
         author := "a", score := 0, num_comments := 0, created_utc := 864000,
         url := "u", sentiment := "neutral", sentiment_score := 0,
         topics := [], source := "reddit" }] 0 =
      (initialBackfillStatus, false) := rfl

/-- C8 (amended): the decision of `check_and_start_backfill` to start a
run depends only on the stored posts and the clock — it is the same for
every incoming status record, so a trigger arriving while `in_progress` is
true is *not* rejected.  (The original claim's serialization guard does not
exist in the code; see the counterexample.) -/
theorem backfill_start_ignores_status (st₁ st₂ : BackfillStatus)
    (posts : List PostData) (now : ℤ) :
    (check_and_start_backfill st₁ posts now).2 =
      (check_and_start_backfill st₂ posts now).2 := by
  cases posts with
  | nil => rfl
  | cons p rest => rfl

/-- C8 counterexample: with the `in_progress` flag set (a backfill run
active) and an insufficient store, `check_and_start_backfill` still starts
a new backfill run — the second trigger is not rejected.  This is exactly
the state `POST /clear-database` produces when called during a run: it
resets the status and re-triggers while the first worker thread is still
executing. -/
theorem backfill_start_despite_in_progress_cx :
    ({ initialBackfillStatus with in_progress := true } : BackfillStatus).in_progress
        = true
    ∧ (check_and_start_backfill
        { initialBackfillStatus with in_progress := true } [] 0).2 = true :=
  ⟨rfl, rfl⟩

/-- A raw Reddit comment as consumed by `backfill_with_comments.py`
(the provider-side fields the loop reads). -/
structure RawComment where
  id : String
  body : String
  author : String
  score : ℤ
  created_utc : ℤ
  permalink : String
deriving DecidableEq

/-- The per-comment step of `backfill_with_comments` (lines 117-148),
given the keyword match count `matches` of the parent post and the VADER
score oracle: skip comments shorter than 20 characters, accept iff the
comment has at least 1 keyword match of its own or the parent post had at
least 2 (context inheritance), and build the stored item with the
composite id `{post_id}_{comment_id}`. -/
def process_comment (vader : String → PolarityScores) (subreddit : String)
    (submissionId submissionTitle : String) (post_matches : Nat) (c : RawComment) :
    Option PostData :=
  if c.body.length < 20 then none
  else if 1 ≤ keywordMatches c.body ∨ 2 ≤ post_matches then
    some { id := submissionId ++ "_" ++ c.id
           subreddit := subreddit
           title := "Comment on: " ++ submissionTitle.take 50 ++ "..."
           text := c.body
           author := c.author
           score := c.score
           num_comments := 0
           created_utc := c.created_utc
           url := "https://reddit.com" ++ c.permalink
           sentiment := (analyze (vader c.body)).sentiment
           sentiment_score := (analyze (vader c.body)).score
           topics := extract_topics c.body
           source := "reddit_comment" }
  else none

/-- C9: a comment of sufficient length (≥ 20 characters) is accepted for
analysis and inclusion iff its own text has at least 1 domain keyword
match or its parent post's match count was at least 2, and the accepted
item's id is the composite `{post_id}_{comment_id}`. -/
theorem comment_acceptance (vader : String → PolarityScores)
    (subreddit submissionId submissionTitle : String) (post_matches : Nat)
    (c : RawComment) (hlen : 20 ≤ c.body.length) :
    ((process_comment vader subreddit submissionId submissionTitle post_matches c).isSome
        ↔ (1 ≤ keywordMatches c.body ∨ 2 ≤ post_matches))
    ∧ ∀ d, process_comment vader subreddit submissionId submissionTitle post_matches c
        = some d → d.id = submissionId ++ "_" ++ c.id := by
  have hshort : ¬ c.body.length < 20 := by omega
  unfold process_comment
  rw [if_neg hshort]
  constructor
  · constructor
    · intro hsome
      by_contra hacc
      rw [if_neg hacc] at hsome
      simp at hsome
    · intro hacc
      rw [if_pos hacc]
      rfl
  · intro d hd
    by_cases hacc : 1 ≤ keywordMatches c.body ∨ 2 ≤ post_matches
    · rw [if_pos hacc] at hd
      have hrec := Option.some.inj hd
      rw [← hrec]
    · rw [if_neg hacc] at hd
      cases hd

theorem comment_acceptance_witness :
    (process_comment (fun _ => { compound := 0, pos := 0, neg := 0, neu := 1 })
      "argentina" "p1" "titulo" 0
      { id := "c9", body := "la inflacion y el dolar suben sin freno",
        author := "a", score := 2, created_utc := 86400,
        permalink := "/r/argentina/x" }).isSome = true := by
  have h := comment_acceptance (fun _ => { compound := 0, pos := 0, neg := 0, neu := 1 })
    "argentina" "p1" "titulo" 0
    { id := "c9", body := "la inflacion y el dolar suben sin freno",
      author := "a", score := 2, created_utc := 86400,
      permalink := "/r/argentina/x" } (by decide)
  rw [h.1]
  exact Or.inl (by decide)
